import Mathlib

/-!
Shallow embedding of the ShopSync vehicle-service-tracking backend
(`main.py`, `schemas.py`, `models.py`).

The Supabase table store is modelled as explicit lists of rows carried in a
`DB` value; every endpoint becomes a pure state-passing function.  Store
writes that can be rejected take an explicit success flag (`insertOk`,
`updateOk`, ...); the SMS carrier is an oracle `smsOk : phone → body → Bool`
(`send_sms` returns that Bool and never raises, mirroring its internal
try/except).  Endpoints additionally return the list of SMS attempts
(phone, body) they made, and `delete_vehicle` returns the ordered list of
table deletions it performed.  Timestamps are integers (ISO-8601 strings
compare like their time values); the "days" of `timedelta(days=...)` are the
units of that integer clock.  Ids generated by the store (uuid4 links,
row primary keys) are drawn from a counter in `DB`.

Python-truthiness of optional ints / strings (`if service.reminder_interval_months:`,
`if status_update.message:`) is embedded by `pyTruthyInt` / `pyTruthyStr`:
`0`, `""` and `None` are all falsy.  `str.title()`, `str.replace('_', ' ')`
and the `{n:,}` thousands-separator format are embedded character-faithfully.

`raise HTTPException` inside a `try` whose handler is a blanket
`except Exception as e: raise HTTPException(500, str(e))` is embedded the way
CPython executes it: the original exception is swallowed and the response is
a 500 whose detail is `str(e)`, i.e. `"{status}: {detail}"`.  Only
`update_vehicle_status` has an `except HTTPException: raise` arm, so only
there does the explicit 404 survive.
-/

namespace ShopSync

/-- Python truthiness for `Optional[int]`: `None` and `0` are falsy. -/
def pyTruthyInt : Option Int → Bool
  | none => false
  | some n => n != 0

/-- Python truthiness for `Optional[str]`: `None` and `""` are falsy. -/
def pyTruthyStr : Option String → Bool
  | none => false
  | some s => s != ""

/-- Python `str(x)` for an optional int in an f-string: `None` renders as "None". -/
def pyStrOptInt : Option Int → String
  | none => "None"
  | some n => toString n

/-- Python `str(x)` for an optional string in an f-string: `None` renders as "None". -/
def pyStrOptStr : Option String → String
  | none => "None"
  | some s => s

/-- `str.replace('_', ' ')`. -/
def pyReplaceUnderscores (s : String) : String :=
  String.mk (s.toList.map (fun c => if c = '_' then ' ' else c))

/-- Character fold behind `pyTitle`: the Bool records whether the previous
character was alphabetic (a "cased" character in Python's sense). -/
def titleChars : Bool → List Char → List Char
  | _, [] => []
  | prevAlpha, c :: cs =>
    (if c.isAlpha then (if prevAlpha then c.toLower else c.toUpper) else c)
      :: titleChars c.isAlpha cs

/-- Python `str.title()`: first character of each alphabetic run uppercased,
the rest lowercased. -/
def pyTitle (s : String) : String :=
  String.mk (titleChars false s.toList)

/-- Digit grouping of Python's `f"{n:,}"` for a natural number. -/
def commaFmtNat (n : Nat) : String :=
  String.mk ((Nat.repr n).toList.reverse.enum.foldl
    (fun acc p => if p.1 ≠ 0 ∧ p.1 % 3 = 0 then p.2 :: ',' :: acc else p.2 :: acc) [])

/-- Python's `f"{n:,}"` for an int. -/
def commaFmtInt : Int → String
  | .ofNat n => commaFmtNat n
  | .negSucc n => "-" ++ commaFmtNat (n + 1)

/-- A `vehicles` row (`models.Vehicle` / the insert payload of `create_vehicle`). -/
structure Vehicle where
  vehicle_id : String
  shop_id : String
  customer_name : String
  customer_phone : String
  customer_email : Option String
  make : Option String
  model : Option String
  year : Option Int
  vin : Option String
  license_plate : Option String
  unique_link : String
  status : String
  estimated_completion : Option String
  deriving Repr, DecidableEq

/-- An `updates` row: the insert payload of `update_vehicle_status`. -/
structure UpdateRecord where
  vehicle_id : String
  user_id : String
  old_status : String
  new_status : String
  message : Option String
  deriving Repr, DecidableEq

/-- A `messages` row (insert payload of `create_message`). -/
structure MessageRow where
  vehicle_id : String
  sender_type : String
  message_text : String
  deriving Repr, DecidableEq

/-- A `media` row (insert payload of `upload_media`). -/
structure MediaRow where
  vehicle_id : String
  user_id : Option String
  media_type : String
  media_url : String
  caption : Option String
  deriving Repr, DecidableEq

/-- An `approvals` row.  `cost` is only ever stored and echoed back, never
computed with, so its numeric type is irrelevant to every claim; we use `Int`. -/
structure Approval where
  approval_id : String
  vehicle_id : String
  description : String
  cost : Int
  approved : Option Bool
  approved_at : Option Int
  deriving Repr, DecidableEq

/-- A `service_records` row. -/
structure ServiceRecord where
  service_id : String
  vehicle_id : String
  service_type : String
  current_mileage : Int
  next_service_mileage : Option Int
  reminder_interval_months : Option Int
  next_reminder_date : Option Int
  notes : Option String
  reminder_sent : Bool
  deriving Repr, DecidableEq

/-- The table store: one list of rows per table, plus a counter from which
store-generated ids (uuid4 tracking tokens, row primary keys) are drawn. -/
structure DB where
  vehicles : List Vehicle
  updates : List UpdateRecord
  messages : List MessageRow
  media : List MediaRow
  approvals : List Approval
  service_records : List ServiceRecord
  counter : Nat
  deriving Repr, DecidableEq

def emptyDB : DB :=
  { vehicles := [], updates := [], messages := [], media := [], approvals := []
    service_records := [], counter := 0 }

/-- `schemas.VehicleCreate`. -/
structure VehicleCreate where
  customer_name : String
  customer_phone : String
  customer_email : Option String := none
  make : Option String := none
  model : Option String := none
  year : Option Int := none
  vin : Option String := none
  license_plate : Option String := none
  estimated_completion : Option String := none
  deriving Repr, DecidableEq

/-- `schemas.StatusUpdate`. -/
structure StatusUpdate where
  new_status : String
  message : Option String := none
  deriving Repr, DecidableEq

/-- `schemas.ApprovalCreate`. -/
structure ApprovalCreate where
  description : String
  cost : Int
  deriving Repr, DecidableEq

/-- `schemas.ServiceRecordCreate`. -/
structure ServiceRecordCreate where
  service_type : String
  current_mileage : Int
  next_service_mileage : Option Int := none
  reminder_interval_months : Option Int := none
  notes : Option String := none
  deriving Repr, DecidableEq

/-- An HTTP error response (`HTTPException`). -/
structure HTTPError where
  status : Nat
  detail : String
  deriving Repr, DecidableEq

/-- Python `str(e)` for a `starlette.HTTPException`: `"{status_code}: {detail}"`. -/
def excStr (e : HTTPError) : String :=
  toString e.status ++ ": " ++ e.detail

/-- The `{"success": ..., "message": ...}` acknowledgment bodies. -/
structure StatusResult where
  success : Bool
  message : String
  deriving Repr, DecidableEq

/-- The `{"success": ..., "approved": ...}` body of `respond_to_approval`. -/
structure ApprovalRespondResult where
  success : Bool
  approved : Bool
  deriving Repr, DecidableEq

/-- An SMS attempt: recipient phone and message body. -/
abbrev SmsAttempt := String × String

/-- The hard-coded customer-portal URL prefix of `create_vehicle`. -/
def portalUrlFor (unique_link : String) : String :=
  "https://frontend-dusky-omega-j8xii0qafc.vercel.app/track/" ++ unique_link

/-- `POST /vehicles/` (`create_vehicle`).  `insertOk = false` models the store
returning no rows for the insert; the explicit
`raise HTTPException(400, "Failed to create vehicle")` is then caught by the
function's own blanket `except Exception` and surfaces as a 500 whose detail
is `str(e)`.  On success the check-in SMS is attempted and its result ignored. -/
def create_vehicle (db : DB) (vehicle : VehicleCreate) (shop_id : String)
    (insertOk : Bool) (smsOk : String → String → Bool) :
    DB × List SmsAttempt × Except HTTPError Vehicle :=
  let unique_link := "uuid-" ++ toString db.counter
  if insertOk then
    let row : Vehicle :=
      { vehicle_id := "veh-" ++ toString db.counter
        shop_id := shop_id
        customer_name := vehicle.customer_name
        customer_phone := vehicle.customer_phone
        customer_email := vehicle.customer_email
        make := vehicle.make
        model := vehicle.model
        year := vehicle.year
        vin := vehicle.vin
        license_plate := vehicle.license_plate
        unique_link := unique_link
        status := "checked_in"
        estimated_completion := vehicle.estimated_completion }
    let db1 := { db with vehicles := db.vehicles ++ [row], counter := db.counter + 1 }
    let sms_message := "Hi " ++ vehicle.customer_name
      ++ "! Your vehicle is checked in at Summit Trucks. Track its status here: "
      ++ portalUrlFor unique_link
    let _ := smsOk vehicle.customer_phone sms_message
    (db1, [(vehicle.customer_phone, sms_message)], .ok row)
  else
    (db, [], .error ⟨500, excStr ⟨400, "Failed to create vehicle"⟩⟩)

/-- `GET /vehicles/{unique_link}` (`get_vehicle_by_link`).  The 404 raised in
the try block for an unknown token is caught by the blanket
`except Exception as e` and re-raised as `HTTPException(500, str(e))`. -/
def get_vehicle_by_link (db : DB) (unique_link : String) : Except HTTPError Vehicle :=
  let body : Except HTTPError Vehicle :=
    match db.vehicles.filter (fun v => v.unique_link == unique_link) with
    | [] => .error ⟨404, "Vehicle not found"⟩
    | v :: _ => .ok v
  match body with
  | .ok v => .ok v
  | .error e => .error ⟨500, excStr e⟩

/-- `PATCH /vehicles/{vehicle_id}/status` (`update_vehicle_status`).
This handler has an `except HTTPException: raise` arm, so the explicit 404
survives; any store failure in the status write (`updateOk = false`) or the
audit insert (`insertOk = false`) becomes the generic
`500 "Failed to update vehicle status"`.  When the audit insert fails the
status write has already been executed (the writes are not atomic).  The
SMS block runs only when `ENABLE_STATUS_SMS` is set and is non-fatal. -/
def update_vehicle_status (db : DB) (vehicle_id : String)
    (status_update : StatusUpdate) (user_id : String)
    (enableStatusSms : Bool) (updateOk insertOk : Bool)
    (smsOk : String → String → Bool) :
    DB × List SmsAttempt × Except HTTPError StatusResult :=
  match db.vehicles.filter (fun v => v.vehicle_id == vehicle_id) with
  | [] => (db, [], .error ⟨404, "Vehicle not found"⟩)
  | current_vehicle :: _ =>
    let old_status := current_vehicle.status
    if updateOk then
      let db1 := { db with vehicles := db.vehicles.map (fun v =>
        if v.vehicle_id == vehicle_id
        then { v with status := status_update.new_status } else v) }
      if insertOk then
        let db2 := { db1 with updates := db1.updates ++
          [{ vehicle_id := vehicle_id, user_id := user_id, old_status := old_status
             new_status := status_update.new_status, message := status_update.message }] }
        if enableStatusSms then
          let base := "Update on your vehicle: "
            ++ pyTitle (pyReplaceUnderscores status_update.new_status)
          let sms_message :=
            if pyTruthyStr status_update.message
            then base ++ " - " ++ status_update.message.getD ""
            else base
          let customer_phone := current_vehicle.customer_phone
          let _ := smsOk customer_phone sms_message
          (db2, [(customer_phone, sms_message)], .ok ⟨true, "Status updated successfully"⟩)
        else
          (db2, [], .ok ⟨true, "Status updated successfully"⟩)
      else
        (db1, [], .error ⟨500, "Failed to update vehicle status"⟩)
    else
      (db, [], .error ⟨500, "Failed to update vehicle status"⟩)

/-- `DELETE /vehicles/{vehicle_id}` (`delete_vehicle`).  No existence check is
performed.  The five store deletes run in the written order; `okN = false`
models the N-th delete raising, which aborts the remaining deletes (prior
deletes persist — no transaction) and surfaces as a 500.  The middle component
lists the tables whose delete completed, in order. -/
def delete_vehicle (db : DB) (vehicle_id : String)
    (ok1 ok2 ok3 ok4 ok5 : Bool) :
    DB × List String × Except HTTPError StatusResult :=
  if ok1 then
    let db1 := { db with messages := db.messages.filter (fun m => !(m.vehicle_id == vehicle_id)) }
    if ok2 then
      let db2 := { db1 with media := db1.media.filter (fun m => !(m.vehicle_id == vehicle_id)) }
      if ok3 then
        let db3 := { db2 with approvals := db2.approvals.filter (fun a => !(a.vehicle_id == vehicle_id)) }
        if ok4 then
          let db4 := { db3 with service_records := db3.service_records.filter (fun r => !(r.vehicle_id == vehicle_id)) }
          if ok5 then
            let db5 := { db4 with vehicles := db4.vehicles.filter (fun v => !(v.vehicle_id == vehicle_id)) }
            (db5, ["messages", "media", "approvals", "service_records", "vehicles"],
              .ok ⟨true, "Vehicle deleted successfully"⟩)
          else
            (db4, ["messages", "media", "approvals", "service_records"],
              .error ⟨500, "store failure"⟩)
        else
          (db3, ["messages", "media", "approvals"], .error ⟨500, "store failure"⟩)
      else
        (db2, ["messages", "media"], .error ⟨500, "store failure"⟩)
    else
      (db1, ["messages"], .error ⟨500, "store failure"⟩)
  else
    (db, [], .error ⟨500, "store failure"⟩)

/-- `POST /vehicles/{vehicle_id}/approvals` (`create_approval`): inserts only
vehicle reference, description and cost; `approved` and `approved_at` take
their column defaults (null). -/
def create_approval (db : DB) (vehicle_id : String) (approval : ApprovalCreate)
    (insertOk : Bool) : DB × Except HTTPError Approval :=
  if insertOk then
    let row : Approval :=
      { approval_id := "app-" ++ toString db.counter
        vehicle_id := vehicle_id
        description := approval.description
        cost := approval.cost
        approved := none
        approved_at := none }
    ({ db with approvals := db.approvals ++ [row], counter := db.counter + 1 }, .ok row)
  else
    (db, .error ⟨500, "store failure"⟩)

/-- `PATCH /approvals/{approval_id}` (`respond_to_approval`): unconditionally
writes `approved` and `approved_at` on every matching row — there is no check
that the approval exists or that it is still pending. -/
def respond_to_approval (db : DB) (approval_id : String) (approved : Bool)
    (now : Int) (updateOk : Bool) : DB × Except HTTPError ApprovalRespondResult :=
  if updateOk then
    ({ db with approvals := db.approvals.map (fun a =>
        if a.approval_id == approval_id
        then { a with approved := some approved, approved_at := some now } else a) },
     .ok ⟨true, approved⟩)
  else
    (db, .error ⟨500, "store failure"⟩)

/-- The confirmation SMS body of `create_service_record`. -/
def serviceSmsText (service : ServiceRecordCreate) : String :=
  let service_type_readable := pyTitle (pyReplaceUnderscores service.service_type)
  let m1 := "Service completed: " ++ service_type_readable ++ " at "
    ++ commaFmtInt service.current_mileage ++ " miles."
  let m2 :=
    if pyTruthyInt service.next_service_mileage
    then m1 ++ " Next service due at "
      ++ commaFmtInt (service.next_service_mileage.getD 0) ++ " miles"
    else m1
  let m3 :=
    if pyTruthyInt service.reminder_interval_months
    then m2 ++ " or in " ++ toString (service.reminder_interval_months.getD 0) ++ " months"
    else m2
  m3 ++ ". We'll remind you when it's time! - Summit Trucks"

/-- `POST /vehicles/{vehicle_id}/service` (`create_service_record`).
`next_reminder_date` is computed only when the interval is Python-truthy
(`if service.reminder_interval_months:` — so an interval of 0 behaves like no
interval), as `now + 30 * months` in day units.  The 404 for a missing vehicle
and the 400 for a rejected insert are both raised inside the try block and
caught by the blanket handler, surfacing as 500s with `str(e)` details. -/
def create_service_record (db : DB) (vehicle_id : String)
    (service : ServiceRecordCreate) (now : Int) (insertOk : Bool)
    (smsOk : String → String → Bool) :
    DB × List SmsAttempt × Except HTTPError ServiceRecord :=
  match db.vehicles.filter (fun v => v.vehicle_id == vehicle_id) with
  | [] => (db, [], .error ⟨500, excStr ⟨404, "Vehicle not found"⟩⟩)
  | vehicle :: _ =>
    let next_reminder_date : Option Int :=
      if pyTruthyInt service.reminder_interval_months
      then some (now + 30 * service.reminder_interval_months.getD 0)
      else none
    if insertOk then
      let row : ServiceRecord :=
        { service_id := "svc-" ++ toString db.counter
          vehicle_id := vehicle_id
          service_type := service.service_type
          current_mileage := service.current_mileage
          next_service_mileage := service.next_service_mileage
          reminder_interval_months := service.reminder_interval_months
          next_reminder_date := next_reminder_date
          notes := service.notes
          reminder_sent := false }
      let db1 := { db with service_records := db.service_records ++ [row]
                           counter := db.counter + 1 }
      let sms_message := serviceSmsText service
      let _ := smsOk vehicle.customer_phone sms_message
      (db1, [(vehicle.customer_phone, sms_message)], .ok row)
    else
      (db, [], .error ⟨500, excStr ⟨400, "Failed to create service record"⟩⟩)

/-- PostgREST `.lte("next_reminder_date", today)` on a nullable column:
a NULL date never satisfies the comparison. -/
def lteNow (d : Option Int) (now : Int) : Bool :=
  match d with
  | none => false
  | some t => t ≤ now

/-- `GET /service-reminders/due` (`get_due_reminders`): service records whose
`next_reminder_date` is ≤ now and whose `reminder_sent` is false, each paired
with the embedded `vehicles(*)` join (the first vehicle row matching the
record's `vehicle_id`, or null). -/
def get_due_reminders (db : DB) (now : Int) :
    List (ServiceRecord × Option Vehicle) :=
  (db.service_records.filter (fun r =>
      lteNow r.next_reminder_date now && r.reminder_sent == false)).map
    (fun r => (r, (db.vehicles.filter (fun v => v.vehicle_id == r.vehicle_id)).head?))

/-- The reminder SMS body of `send_service_reminders` (f-string renders a
missing year/make/model as "None", like Python). -/
def reminderSmsText (record : ServiceRecord) (vehicle : Vehicle) : String :=
  let service_type := pyTitle (pyReplaceUnderscores record.service_type)
  let message := "Reminder: Your " ++ pyStrOptInt vehicle.year ++ " "
    ++ pyStrOptStr vehicle.make ++ " " ++ pyStrOptStr vehicle.model ++ " "
  let message :=
    if pyTruthyInt record.next_service_mileage
    then message ++ "is due for " ++ service_type ++ " at "
      ++ commaFmtInt (record.next_service_mileage.getD 0) ++ " miles. "
    else message ++ "is due for " ++ service_type ++ ". "
  message ++ "Reply YES to schedule or call Summit Trucks!"

/-- The `for record in due_reminders:` loop of `send_service_reminders`,
threading the store, the SMS-attempt trace and `sent_count`.  A record whose
join produced no vehicle is skipped; otherwise the SMS is attempted and only
on success is the record's `reminder_sent` flag written back. -/
def dispatchLoop (smsOk : String → String → Bool) :
    List (ServiceRecord × Option Vehicle) → DB → List SmsAttempt → Nat →
    DB × List SmsAttempt × Nat
  | [], db, trace, sent_count => (db, trace, sent_count)
  | (record, ov) :: rest, db, trace, sent_count =>
    match ov with
    | none => dispatchLoop smsOk rest db trace sent_count
    | some vehicle =>
      let message := reminderSmsText record vehicle
      if smsOk vehicle.customer_phone message then
        dispatchLoop smsOk rest
          { db with service_records := db.service_records.map (fun r =>
              if r.service_id == record.service_id
              then { r with reminder_sent := true } else r) }
          (trace ++ [(vehicle.customer_phone, message)]) (sent_count + 1)
      else
        dispatchLoop smsOk rest db (trace ++ [(vehicle.customer_phone, message)]) sent_count

/-- `POST /service-reminders/send` (`send_service_reminders`): dispatches the
due list computed up front and returns the final store, the SMS attempts and
`reminders_sent`. -/
def send_service_reminders (db : DB) (now : Int)
    (smsOk : String → String → Bool) : DB × List SmsAttempt × Nat :=
  dispatchLoop smsOk (get_due_reminders db now) db [] 0

/-- Did the dispatch loop successfully send for this due pair?  False when the
join produced no vehicle or when the carrier refused the message. -/
def sentOk (smsOk : String → String → Bool)
    (p : ServiceRecord × Option Vehicle) : Bool :=
  match p.2 with
  | none => false
  | some v => smsOk v.customer_phone (reminderSmsText p.1 v)

/-- The SMS attempt a due pair gives rise to (none when the join was empty). -/
def attemptOf (p : ServiceRecord × Option Vehicle) : Option SmsAttempt :=
  p.2.map (fun v => (v.customer_phone, reminderSmsText p.1 v))

/-- The net effect of one dispatch invocation on a stored service record:
its `reminder_sent` flag is raised exactly when some due pair with its
`service_id` was successfully sent. -/
def markFrom (smsOk : String → String → Bool)
    (due : List (ServiceRecord × Option Vehicle)) (r : ServiceRecord) : ServiceRecord :=
  if due.any (fun p => sentOk smsOk p && p.1.service_id == r.service_id)
  then { r with reminder_sent := true } else r

/-- Modelled from the spec: the toggle-warranty endpoint
(`PATCH /vehicles/{vehicle_id}/toggle-warranty`, §4.1 "Toggle warranty hold")
is absent from the source tree, as is the vehicle's `awaiting_warranty`
column; only its per-vehicle effect is modelled here, on a vehicle state
carrying the two fields the operation touches. -/
structure WVehicle where
  status : String
  awaiting_warranty : Bool
  deriving Repr, DecidableEq

/-- Modelled from the spec: "Reads current `awaiting_warranty` boolean, flips
it, and derives the new status: flipping to `true` forces status to
`awaiting_warranty`; flipping to `false` forces status to `in_progress`." -/
def toggle_warranty (v : WVehicle) : WVehicle :=
  let flipped := !v.awaiting_warranty
  { v with awaiting_warranty := flipped
           status := if flipped then "awaiting_warranty" else "in_progress" }

/-! Concrete sample data for witnesses and counterexamples. -/

/-- An SMS oracle that accepts every message. -/
def smsAlways : String → String → Bool := fun _ _ => true

/-- An SMS oracle that refuses every message. -/
def smsNever : String → String → Bool := fun _ _ => false

/-- A sample stored vehicle. -/
def vehA : Vehicle :=
  { vehicle_id := "v1", shop_id := "s1", customer_name := "Al"
    customer_phone := "+15550001111", customer_email := none, make := some "Ford"
    model := some "F150", year := some 2020, vin := none, license_plate := none
    unique_link := "tok-1", status := "in_progress", estimated_completion := none }

/-- A store holding just `vehA`. -/
def dbOneVehicle : DB := { emptyDB with vehicles := [vehA] }

/-- A sample creation request (the spec's §8 example). -/
def vcJane : VehicleCreate :=
  { customer_name := "Jane Doe", customer_phone := "+15551234567"
    make := some "Ford", model := some "F150", year := some 2020 }

/-- A due, unsent service record owned by `vehA`. -/
def srDue : ServiceRecord :=
  { service_id := "svc-1", vehicle_id := "v1", service_type := "oil_change"
    current_mileage := 50000, next_service_mileage := some 55000
    reminder_interval_months := some 3, next_reminder_date := some 90
    notes := none, reminder_sent := false }

/-- A due, unsent record owned by a vehicle that is not in the store. -/
def srOrphan : ServiceRecord := { srDue with service_id := "svc-2", vehicle_id := "v2" }

/-- A due record already marked sent. -/
def srSent : ServiceRecord := { srDue with service_id := "svc-3", reminder_sent := true }

/-- An unsent record not yet due at time 100. -/
def srLater : ServiceRecord := { srDue with service_id := "svc-4", next_reminder_date := some 500 }

/-- A store exercising every branch of the reminder dispatch. -/
def dbReminders : DB :=
  { emptyDB with vehicles := [vehA], service_records := [srDue, srOrphan, srSent, srLater] }

end ShopSync

namespace ShopSync

/-! ## Helper lemmas -/

/-- The head of a filtered list is the first element satisfying the predicate. -/
theorem head_filter_eq_find {α : Type} (p : α → Bool) (l : List α) :
    (l.filter p).head? = l.find? p := by
  induction l with
  | nil => rfl
  | cons a t ih =>
    by_cases h : p a <;> simp [List.filter_cons, List.find?_cons, h, ih]

/-- `lteNow` holds exactly of non-null dates at or before `now`. -/
theorem lteNow_iff (d : Option Int) (now : Int) :
    lteNow d now = true ↔ ∃ t, d = some t ∧ t ≤ now := by
  cases d <;> simp [lteNow]

/-- Membership in the due-reminders query. -/
theorem mem_due_iff (db : DB) (now : Int) (r : ServiceRecord) (ov : Option Vehicle) :
    (r, ov) ∈ get_due_reminders db now ↔
      r ∈ db.service_records ∧ r.reminder_sent = false ∧
      (∃ d, r.next_reminder_date = some d ∧ d ≤ now) ∧
      ov = (db.vehicles.filter (fun v => v.vehicle_id == r.vehicle_id)).head? := by
  unfold get_due_reminders
  simp only [List.mem_map, List.mem_filter, Bool.and_eq_true, Prod.mk.injEq, beq_iff_eq]
  constructor
  · rintro ⟨a, ⟨⟨ha, hc1, hc2⟩, rfl, rfl⟩⟩
    exact ⟨ha, hc2, (lteNow_iff _ _).mp hc1, rfl⟩
  · rintro ⟨ha, hsent, hdue, hov⟩
    exact ⟨r, ⟨ha, (lteNow_iff _ _).mpr hdue, hsent⟩, rfl, hov.symm⟩

/-- The records of the due list are the rows passing the due filter. -/
theorem due_fst (db : DB) (now : Int) :
    (get_due_reminders db now).map Prod.fst =
      db.service_records.filter
        (fun r => lteNow r.next_reminder_date now && r.reminder_sent == false) := by
  unfold get_due_reminders
  have h : (Prod.fst ∘ fun r : ServiceRecord =>
      (r, (db.vehicles.filter (fun v => v.vehicle_id == r.vehicle_id)).head?)) = id := rfl
  rw [List.map_map, h, List.map_id]

/-- Processing a due pair that was skipped or whose send failed does not
change which records end marked. -/
theorem markFrom_cons_skip (smsOk : String → String → Bool)
    (p : ServiceRecord × Option Vehicle) (rest : List (ServiceRecord × Option Vehicle))
    (r : ServiceRecord) (hp : sentOk smsOk p = false) :
    markFrom smsOk (p :: rest) r = markFrom smsOk rest r := by
  unfold markFrom
  rw [List.any_cons, hp]
  simp only [Bool.false_and, Bool.false_or]

/-- Marking the head pair's record sent and then applying the rest's marking
is the marking of the whole list, when the head pair's send succeeded. -/
theorem markFrom_cons_sent (smsOk : String → String → Bool)
    (record : ServiceRecord) (vehicle : Vehicle)
    (rest : List (ServiceRecord × Option Vehicle)) (r : ServiceRecord)
    (hs : smsOk vehicle.customer_phone (reminderSmsText record vehicle) = true) :
    markFrom smsOk rest
      (if r.service_id == record.service_id then { r with reminder_sent := true } else r) =
    markFrom smsOk ((record, some vehicle) :: rest) r := by
  by_cases hc : r.service_id = record.service_id
  · have hb : (r.service_id == record.service_id) = true := beq_iff_eq.mpr hc
    rw [if_pos hb]
    unfold markFrom
    rw [List.any_cons]
    have hcond : (sentOk smsOk (record, some vehicle) && record.service_id == r.service_id) = true := by
      have : sentOk smsOk (record, some vehicle) = true := hs
      rw [this, beq_iff_eq.mpr hc.symm]
      rfl
    rw [hcond, Bool.true_or]
    simp
  · have hb : (r.service_id == record.service_id) = false := beq_eq_false_iff_ne.mpr hc
    rw [if_neg (by rw [hb]; exact Bool.false_ne_true)]
    unfold markFrom
    rw [List.any_cons]
    have hb2 : (record.service_id == r.service_id) = false :=
      beq_eq_false_iff_ne.mpr (fun h => hc h.symm)
    have hcond : (sentOk smsOk (record, some vehicle) && record.service_id == r.service_id) = false := by
      rw [hb2, Bool.and_false]
    rw [hcond, Bool.false_or]

/-- The dispatch loop's net effect: records marked via `markFrom`, one SMS
attempt per due pair with a resolvable vehicle, and the count of successful
sends added to the accumulator. -/
theorem dispatchLoop_spec (smsOk : String → String → Bool)
    (due : List (ServiceRecord × Option Vehicle)) (db : DB)
    (trace : List SmsAttempt) (sent_count : Nat) :
    dispatchLoop smsOk due db trace sent_count =
      ({ db with service_records := db.service_records.map (markFrom smsOk due) },
       trace ++ due.filterMap attemptOf,
       sent_count + (due.filter (sentOk smsOk)).length) := by
  induction due generalizing db trace sent_count with
  | nil =>
    have h : db.service_records.map (markFrom smsOk []) = db.service_records := by
      have h2 : db.service_records.map (markFrom smsOk []) = db.service_records.map id :=
        List.map_congr_left fun r _ => by unfold markFrom; simp
      rw [h2, List.map_id]
    rw [h]
    simp [dispatchLoop]
  | cons p rest ih =>
    obtain ⟨record, ov⟩ := p
    cases ov with
    | none =>
      rw [dispatchLoop, ih]
      have hskip : sentOk smsOk (record, (none : Option Vehicle)) = false := rfl
      have hmap : db.service_records.map (markFrom smsOk ((record, none) :: rest)) =
          db.service_records.map (markFrom smsOk rest) :=
        List.map_congr_left fun r _ => markFrom_cons_skip smsOk _ rest r hskip
      rw [hmap]
      have hatt : attemptOf (record, (none : Option Vehicle)) = none := rfl
      have hfm : ((record, (none : Option Vehicle)) :: rest).filterMap attemptOf =
          rest.filterMap attemptOf := by
        rw [List.filterMap_cons, hatt]
      have hfl : ((record, (none : Option Vehicle)) :: rest).filter (sentOk smsOk) =
          rest.filter (sentOk smsOk) := by
        rw [List.filter_cons, hskip]
        simp
      rw [hfm, hfl]
    | some vehicle =>
      rw [dispatchLoop]
      by_cases hs : smsOk vehicle.customer_phone (reminderSmsText record vehicle) = true
      · rw [if_pos hs, ih, List.map_map]
        have hsent : sentOk smsOk (record, some vehicle) = true := hs
        have hmap : db.service_records.map (markFrom smsOk rest ∘ fun r =>
            if r.service_id == record.service_id
            then { r with reminder_sent := true } else r) =
            db.service_records.map (markFrom smsOk ((record, some vehicle) :: rest)) :=
          List.map_congr_left fun r _ => markFrom_cons_sent smsOk record vehicle rest r hs
        rw [hmap]
        have hatt : attemptOf (record, some vehicle) =
            some (vehicle.customer_phone, reminderSmsText record vehicle) := rfl
        have hfm : ((record, some vehicle) :: rest).filterMap attemptOf =
            (vehicle.customer_phone, reminderSmsText record vehicle) :: rest.filterMap attemptOf := by
          rw [List.filterMap_cons, hatt]
        have hfl : (((record, some vehicle) :: rest).filter (sentOk smsOk)).length =
            (rest.filter (sentOk smsOk)).length + 1 := by
          rw [List.filter_cons, hsent]
          simp
        rw [hfm, hfl]
        refine congrArg₂ Prod.mk rfl (congrArg₂ Prod.mk ?_ ?_)
        · rw [List.append_assoc]
          rfl
        · omega
      · have hs2 : smsOk vehicle.customer_phone (reminderSmsText record vehicle) = false :=
          eq_false_of_ne_true hs
        rw [if_neg (hs2 ▸ Bool.false_ne_true), ih]
        have hskip : sentOk smsOk (record, some vehicle) = false := hs2
        have hmap : db.service_records.map (markFrom smsOk ((record, some vehicle) :: rest)) =
            db.service_records.map (markFrom smsOk rest) :=
          List.map_congr_left fun r _ => markFrom_cons_skip smsOk _ rest r hskip
        rw [hmap]
        have hatt : attemptOf (record, some vehicle) =
            some (vehicle.customer_phone, reminderSmsText record vehicle) := rfl
        have hfm : ((record, some vehicle) :: rest).filterMap attemptOf =
            (vehicle.customer_phone, reminderSmsText record vehicle) :: rest.filterMap attemptOf := by
          rw [List.filterMap_cons, hatt]
        have hfl : ((record, some vehicle) :: rest).filter (sentOk smsOk) =
            rest.filter (sentOk smsOk) := by
          rw [List.filter_cons, hskip]
          simp
        rw [hfm, hfl]
        refine congrArg₂ Prod.mk rfl (congrArg₂ Prod.mk ?_ rfl)
        rw [List.append_assoc]
        rfl

/-! ## Claim theorems -/

/-- C6 (code_bug evidence): the public lookup by tracking token returns
exactly the vehicle created with that token; but for a token never issued the
explicitly raised 404 is caught by the handler's blanket `except Exception`
and the endpoint responds 500 (detail "404: Vehicle not found"), not 404. -/
theorem c6_lookup_by_token_evidence :
    (get_vehicle_by_link dbOneVehicle "tok-1" = .ok vehA) ∧
    (get_vehicle_by_link dbOneVehicle "tok-404" =
      .error { status := 500, detail := "404: Vehicle not found" }) :=
  ⟨rfl, rfl⟩

/-- C7 (code_bug evidence): when the store rejects the vehicle insert the
endpoint responds 500 with detail "400: Failed to create vehicle" — the
explicit 400 is swallowed by the handler's blanket `except Exception` — and
the store is untouched; when the insert succeeds, a refused check-in SMS does
not fail the create, which returns the persisted row with status
`checked_in` and its fresh tracking token. -/
theorem c7_create_vehicle_evidence :
    ((create_vehicle emptyDB vcJane "shop-1" false smsNever).2.2 =
      .error { status := 500, detail := "400: Failed to create vehicle" }) ∧
    ((create_vehicle emptyDB vcJane "shop-1" false smsNever).1 = emptyDB) ∧
    (∃ v : Vehicle,
      (create_vehicle emptyDB vcJane "shop-1" true smsNever).2.2 = .ok v ∧
      v.status = "checked_in" ∧ v.unique_link = "uuid-0" ∧
      (create_vehicle emptyDB vcJane "shop-1" true smsNever).1.vehicles = [v]) :=
  ⟨rfl, rfl, ⟨_, rfl, rfl, rfl, rfl⟩⟩

/-- C8 counterexample: toggling warranty twice on a vehicle whose status is
`ready` (warranty flag off) restores the flag but leaves the status at
`in_progress`, so the double toggle is not the identity claimed. -/
theorem c8_counterexample :
    (toggle_warranty (toggle_warranty ⟨"ready", false⟩)).awaiting_warranty = false ∧
    (toggle_warranty (toggle_warranty ⟨"ready", false⟩)).status = "in_progress" ∧
    toggle_warranty (toggle_warranty ⟨"ready", false⟩) ≠ (⟨"ready", false⟩ : WVehicle) := by
  decide

/-- C8 amended: two toggles restore `awaiting_warranty`, but force the status
to the derived value (`awaiting_warranty` when the flag was originally set,
otherwise `in_progress`); the full state round-trips exactly when the
original status already equals that derived status. -/
theorem c8_amended_double_toggle (v : WVehicle) :
    (toggle_warranty (toggle_warranty v)).awaiting_warranty = v.awaiting_warranty ∧
    (toggle_warranty (toggle_warranty v)).status =
      (if v.awaiting_warranty then "awaiting_warranty" else "in_progress") ∧
    (toggle_warranty (toggle_warranty v) = v ↔
      v.status = (if v.awaiting_warranty then "awaiting_warranty" else "in_progress")) := by
  obtain ⟨s, aw⟩ := v
  cases aw <;> simp [toggle_warranty, eq_comm]

/-- C9 counterexample: an approval is created pending (`approved` null), a
first response records `true`, and a second response then overwrites it with
`false` — the approval value changes again after the first response, so the
transition is not once-only. -/
theorem c9_counterexample :
    ((create_approval emptyDB "v1" ⟨"Brake pads", 100⟩ true).1.approvals.map
        (fun a => a.approved) = [none]) ∧
    (((respond_to_approval (create_approval emptyDB "v1" ⟨"Brake pads", 100⟩ true).1
        "app-0" true 10 true).1.approvals.map (fun a => a.approved)) = [some true]) ∧
    (((respond_to_approval (respond_to_approval
        (create_approval emptyDB "v1" ⟨"Brake pads", 100⟩ true).1
        "app-0" true 10 true).1 "app-0" false 20 true).1.approvals.map
        (fun a => a.approved)) = [some false]) := by
  decide

/-- C9 amended: every approval is created with a null (pending) `approved`;
each recorded response unconditionally sets `approved` to the supplied
boolean and stamps `approved_at` on every matching row — a later response
overwrites an earlier one, nothing enforces a single transition. -/
theorem c9_approval_response_overwrites (db : DB) (vid : String)
    (ac : ApprovalCreate) (aid : String) (b : Bool) (now : Int) :
    ((create_approval db vid ac true).1.approvals = db.approvals ++
      [⟨"app-" ++ toString db.counter, vid, ac.description, ac.cost, none, none⟩]) ∧
    ((respond_to_approval db aid b now true).1.approvals = db.approvals.map (fun a =>
      if a.approval_id == aid
      then { a with approved := some b, approved_at := some now } else a)) ∧
    ((respond_to_approval db aid b now true).2 = .ok ⟨true, b⟩) :=
  ⟨rfl, rfl, rfl⟩

/-- C10: `delete_vehicle` performs no existence check and can only answer
success or a 500 store error, never a 404; on a run with no store failure it
returns success for any id (present or not), deletes the four child tables
first and the vehicle row last, and the final store holds no row of any table
for that id. -/
theorem c10_delete_vehicle_contract (db : DB) (vid : String)
    (ok1 ok2 ok3 ok4 ok5 : Bool) :
    (∀ e : HTTPError,
      (delete_vehicle db vid ok1 ok2 ok3 ok4 ok5).2.2 = .error e → e.status = 500) ∧
    ((delete_vehicle db vid true true true true true).2.2 =
      .ok ⟨true, "Vehicle deleted successfully"⟩) ∧
    ((delete_vehicle db vid true true true true true).2.1 =
      ["messages", "media", "approvals", "service_records", "vehicles"]) ∧
    ((delete_vehicle db vid true true true true true).1 =
      { db with messages := db.messages.filter (fun m => !(m.vehicle_id == vid))
                media := db.media.filter (fun m => !(m.vehicle_id == vid))
                approvals := db.approvals.filter (fun a => !(a.vehicle_id == vid))
                service_records := db.service_records.filter (fun r => !(r.vehicle_id == vid))
                vehicles := db.vehicles.filter (fun v => !(v.vehicle_id == vid)) }) := by
  refine ⟨?_, rfl, rfl, rfl⟩
  intro e he
  unfold delete_vehicle at he
  cases ok1 <;> cases ok2 <;> cases ok3 <;> cases ok4 <;> cases ok5 <;>
    simp_all <;> exact he ▸ rfl

/-- C1: when the vehicle id resolves (first matching row `v`, current status
`v.status`), the transition with working store writes returns the success
acknowledgment, persists the target status on every row with that id, and
appends exactly one Update record carrying old status, new status, note and
actor; and when the audit-log insert fails, the whole operation fails
with the 500 error (the audit append shares the operation's contract). -/
theorem c1_status_transition_contract (db : DB) (vid : String) (su : StatusUpdate)
    (uid : String) (enableSms : Bool) (smsOk : String → String → Bool)
    (v : Vehicle) (rest : List Vehicle)
    (hv : db.vehicles.filter (fun w => w.vehicle_id == vid) = v :: rest) :
    ((update_vehicle_status db vid su uid enableSms true true smsOk).2.2 =
      .ok ⟨true, "Status updated successfully"⟩) ∧
    ((update_vehicle_status db vid su uid enableSms true true smsOk).1.vehicles =
      db.vehicles.map (fun w =>
        if w.vehicle_id == vid then { w with status := su.new_status } else w)) ∧
    ((update_vehicle_status db vid su uid enableSms true true smsOk).1.updates =
      db.updates ++ [⟨vid, uid, v.status, su.new_status, su.message⟩]) ∧
    ((update_vehicle_status db vid su uid enableSms true false smsOk).2.2 =
      .error ⟨500, "Failed to update vehicle status"⟩) := by
  unfold update_vehicle_status
  rw [hv]
  cases enableSms <;> by_cases h : pyTruthyStr su.message <;> simp [h]

/-- C1 witness: the contract applied to a one-vehicle store. -/
theorem c1_witness :
    ((update_vehicle_status dbOneVehicle "v1" ⟨"ready", some "Washed"⟩ "u1"
        false true true smsAlways).2.2 = .ok ⟨true, "Status updated successfully"⟩) ∧
    ((update_vehicle_status dbOneVehicle "v1" ⟨"ready", some "Washed"⟩ "u1"
        false true true smsAlways).1.updates =
      [⟨"v1", "u1", "in_progress", "ready", some "Washed"⟩]) := by
  have h := c1_status_transition_contract dbOneVehicle "v1" ⟨"ready", some "Washed"⟩ "u1"
    false smsAlways vehA [] (by decide)
  exact ⟨h.1, h.2.2.1.trans (by decide)⟩

/-- C2 counterexample: with status SMS enabled, transitioning to `ready` with
note "Washed and fueled" sends the generic generated text, not a `ready`
template — the message does not even contain "ready for pickup". -/
theorem c2_counterexample :
    ((update_vehicle_status dbOneVehicle "v1" ⟨"ready", some "Washed and fueled"⟩ "u1"
        true true true smsAlways).2.1 =
      [("+15550001111", "Update on your vehicle: Ready - Washed and fueled")]) ∧
    ¬ List.IsInfix "ready for pickup".toList
        "Update on your vehicle: Ready - Washed and fueled".toList := by
  constructor
  · rfl
  · decide

/-- C2 amended: with the toggle enabled every transition sends exactly one
SMS, to the resolved vehicle's phone, whose text is always the generated
fallback — "Update on your vehicle: " followed by the status with
underscores replaced by spaces and title-cased — with " - note" appended when
the note is Python-truthy; no per-status template mapping exists. -/
theorem c2_amended_generic_sms (db : DB) (vid uid : String) (su : StatusUpdate)
    (smsOk : String → String → Bool) (v : Vehicle) (rest : List Vehicle)
    (hv : db.vehicles.filter (fun w => w.vehicle_id == vid) = v :: rest) :
    (update_vehicle_status db vid su uid true true true smsOk).2.1 =
      [(v.customer_phone,
        if pyTruthyStr su.message
        then "Update on your vehicle: " ++ pyTitle (pyReplaceUnderscores su.new_status)
          ++ " - " ++ su.message.getD ""
        else "Update on your vehicle: " ++ pyTitle (pyReplaceUnderscores su.new_status))] := by
  unfold update_vehicle_status
  rw [hv]
  rfl

/-- C2 witness: the amended statement applied to a one-vehicle store. -/
theorem c2_witness :
    (update_vehicle_status dbOneVehicle "v1" ⟨"ready", some "Washed and fueled"⟩ "u1"
        true true true smsAlways).2.1 =
      [("+15550001111", "Update on your vehicle: Ready - Washed and fueled")] :=
  (c2_amended_generic_sms dbOneVehicle "v1" "u1" ⟨"ready", some "Washed and fueled"⟩
    smsAlways vehA [] (by decide)).trans (by decide)

/-- C4: the due-reminders query returns exactly the pairs of a stored service
record that is unsent with a non-null reminder date at or before now,
joined with the first stored vehicle carrying the record's vehicle id. -/
theorem c4_due_query_characterization (db : DB) (now : Int) (r : ServiceRecord)
    (ov : Option Vehicle) :
    (r, ov) ∈ get_due_reminders db now ↔
      r ∈ db.service_records ∧ r.reminder_sent = false ∧
      (∃ d, r.next_reminder_date = some d ∧ d ≤ now) ∧
      ov = db.vehicles.find? (fun v => v.vehicle_id == r.vehicle_id) :=
  (mem_due_iff db now r ov).trans
    (by rw [head_filter_eq_find])

/-- C5 counterexample: a service record created with a supplied reminder
interval of 0 months gets a null `next_reminder_date`, not `now + 30*0` —
Python truthiness treats the supplied 0 like an absent interval. -/
theorem c5_counterexample :
    ((create_service_record dbOneVehicle "v1"
        { service_type := "oil_change", current_mileage := 50000
          reminder_interval_months := some 0 } 100 true smsAlways).2.2.map
      (fun r => r.next_reminder_date) = .ok none) ∧
    ((create_service_record dbOneVehicle "v1"
        { service_type := "oil_change", current_mileage := 50000
          reminder_interval_months := some 0 } 100 true smsAlways).2.2.map
      (fun r => r.next_reminder_date) ≠ .ok (some (100 + 30 * 0))) :=
  ⟨rfl, fun h => Option.noConfusion (Except.ok.inj h)⟩

/-- C5 amended: when the vehicle resolves and the insert succeeds, the
created record is appended with `reminder_sent = false` and
`next_reminder_date = now + 30*m` days for a supplied nonzero interval `m`;
a null or zero interval yields a null reminder date. -/
theorem c5_reminder_date_computation (db : DB) (vid : String)
    (service : ServiceRecordCreate) (now : Int) (smsOk : String → String → Bool)
    (v : Vehicle) (rest : List Vehicle)
    (hv : db.vehicles.filter (fun w => w.vehicle_id == vid) = v :: rest) :
    ∃ row : ServiceRecord,
      (create_service_record db vid service now true smsOk).2.2 = .ok row ∧
      (create_service_record db vid service now true smsOk).1.service_records =
        db.service_records ++ [row] ∧
      row.reminder_sent = false ∧
      row.next_reminder_date =
        (match service.reminder_interval_months with
         | some m => if m ≠ 0 then some (now + 30 * m) else none
         | none => none) := by
  unfold create_service_record
  rw [hv]
  refine ⟨_, rfl, rfl, rfl, ?_⟩
  cases hm : service.reminder_interval_months with
  | none => simp [pyTruthyInt, hm]
  | some m =>
    by_cases h0 : m = 0 <;> simp [pyTruthyInt, hm, h0]

/-- C5 witness: the amended statement applied with a 3-month interval at
time 0 (giving day 90) on a one-vehicle store. -/
theorem c5_witness :
    ∃ row : ServiceRecord,
      (create_service_record dbOneVehicle "v1"
          { service_type := "oil_change", current_mileage := 50000
            reminder_interval_months := some 3 } 0 true smsAlways).2.2 = .ok row ∧
      (create_service_record dbOneVehicle "v1"
          { service_type := "oil_change", current_mileage := 50000
            reminder_interval_months := some 3 } 0 true smsAlways).1.service_records =
        [] ++ [row] ∧
      row.reminder_sent = false ∧
      row.next_reminder_date =
        (match (some 3 : Option Int) with
         | some m => if m ≠ 0 then some (0 + 30 * m) else none
         | none => none) :=
  c5_reminder_date_computation dbOneVehicle "v1"
    { service_type := "oil_change", current_mileage := 50000
      reminder_interval_months := some 3 } 0 smsAlways vehA [] (by decide)

/-- C3: one dispatch invocation returns a count equal to the number of due
pairs whose send succeeded, rewrites the store so that a record's
`reminder_sent` flag is raised exactly when a successfully-sent due pair
carried its id (`markFrom`), attempts exactly the SMS of the due pairs with a
resolvable vehicle (so a record already marked sent, being excluded from the
due query, is never sent to), marks every successfully-sent due record, and
leaves every failed due record unsent and still returned by the next
due-query. -/
theorem c3_reminder_dispatch (db : DB) (now : Int) (smsOk : String → String → Bool)
    (hids : (db.service_records.map (fun r => r.service_id)).Nodup) :
    ((send_service_reminders db now smsOk).2.2 =
      ((get_due_reminders db now).filter (sentOk smsOk)).length) ∧
    ((send_service_reminders db now smsOk).1.service_records =
      db.service_records.map (markFrom smsOk (get_due_reminders db now))) ∧
    ((send_service_reminders db now smsOk).2.1 =
      (get_due_reminders db now).filterMap attemptOf) ∧
    (∀ p ∈ get_due_reminders db now, sentOk smsOk p = true →
      { p.1 with reminder_sent := true } ∈
        (send_service_reminders db now smsOk).1.service_records) ∧
    (∀ p ∈ get_due_reminders db now, sentOk smsOk p = false →
      p.1 ∈ (get_due_reminders (send_service_reminders db now smsOk).1 now).map
        Prod.fst) := by
  unfold send_service_reminders
  rw [dispatchLoop_spec]
  refine ⟨by simp, rfl, by simp, ?_, ?_⟩
  · intro p hp hsent
    obtain ⟨hrmem, _, _, _⟩ := (mem_due_iff db now p.1 p.2).mp hp
    have hany : (get_due_reminders db now).any
        (fun q => sentOk smsOk q && q.1.service_id == p.1.service_id) = true :=
      List.any_eq_true.mpr ⟨p, hp, by rw [hsent]; simp⟩
    have hmark : markFrom smsOk (get_due_reminders db now) p.1 =
        { p.1 with reminder_sent := true } := by
      unfold markFrom
      rw [hany]
      simp
    exact List.mem_map.mpr ⟨p.1, hrmem, hmark⟩
  · intro p hp hfail
    obtain ⟨hrmem, hsent, hdue, hov⟩ := (mem_due_iff db now p.1 p.2).mp hp
    have hno : ¬ ((get_due_reminders db now).any
        (fun q => sentOk smsOk q && q.1.service_id == p.1.service_id) = true) := by
      intro hany
      obtain ⟨q, hq, hq2⟩ := List.any_eq_true.mp hany
      rw [Bool.and_eq_true] at hq2
      obtain ⟨hqs, hqid⟩ := hq2
      have hq1mem : q.1 ∈ db.service_records := ((mem_due_iff db now q.1 q.2).mp hq).1
      have heq : q.1 = p.1 :=
        List.inj_on_of_nodup_map hids hq1mem hrmem (beq_iff_eq.mp hqid)
      have hq2eq : q.2 = p.2 := by
        have h2 := ((mem_due_iff db now q.1 q.2).mp hq).2.2.2
        rw [heq] at h2
        rw [h2, ← hov]
      have hqp : q = p := Prod.ext heq hq2eq
      rw [hqp, hfail] at hqs
      exact Bool.false_ne_true hqs
    have hno2 : (get_due_reminders db now).any
        (fun q => sentOk smsOk q && q.1.service_id == p.1.service_id) = false :=
      eq_false_of_ne_true hno
    have hmark : markFrom smsOk (get_due_reminders db now) p.1 = p.1 := by
      unfold markFrom
      rw [hno2]
      simp
    rw [due_fst]
    refine List.mem_filter.mpr ⟨List.mem_map.mpr ⟨p.1, hrmem, hmark⟩, ?_⟩
    rw [Bool.and_eq_true]
    exact ⟨(lteNow_iff _ _).mpr hdue, by rw [hsent]; rfl⟩

/-- C3 witness: the dispatch contract applied to a store with a due record, a
due record owned by a missing vehicle, an already-sent record and a
not-yet-due record. -/
theorem c3_witness :
    (send_service_reminders dbReminders 100 smsAlways).2.2 =
      ((get_due_reminders dbReminders 100).filter (sentOk smsAlways)).length :=
  (c3_reminder_dispatch dbReminders 100 smsAlways (by decide)).1

end ShopSync
